import Mathlib

/-!
Shallow embedding of the weather-forecast MCP gateway (`src/index.ts`,
`src/weatherCodes.ts`) for checking its specification.

Modelling conventions:
* JavaScript `Map<string, T>` (the `activeTransports` registry) is an
  association list with the `get` / `set` / `delete` method semantics.
* Timestamps (`Date` values, obtained by parsing the upstream time strings)
  are milliseconds since epoch, as `Int`; the hourly-window comparison
  `hoursDiff >= 0 && hoursDiff < 12` on `diffMs / 3600000` is expressed
  directly on the millisecond difference, which is equivalent because the
  millisecond difference is an integer and division by the positive constant
  preserves both comparisons (no double rounds to the boundary values there).
* JSON numbers are `Rat`; network outcomes of the two upstream HTTP calls are
  `Except String` oracles: `Except.error cause` stands for any thrown
  transport or parse error with detail `cause`, `Except.ok` for a parsed
  response body.
* A terminal frame is the single CallTool response object the dispatcher
  returns (the MCP layer serializes it as one outbound message); its payload
  is kept structured rather than JSON-stringified.
-/

namespace SimpleForecast

/-- Registry value: an opaque handle standing for an `SSEServerTransport`
(identified here by a numeric channel handle). -/
abbrev Channel := Nat

/-- The `activeTransports` registry: `Map<string, SSEServerTransport>`
modelled as an association list from session id to channel handle. -/
abbrev RegMap := List (String × Channel)

/-- JavaScript `Map.prototype.get`: first entry with the key, else `undefined`. -/
def mapGet (m : RegMap) (k : String) : Option Channel :=
  (m.find? (fun p => p.1 = k)).map (fun p => p.2)

/-- JavaScript `Map.prototype.set`: replace the value in place if the key is
present, otherwise append a new entry. -/
def mapSet (m : RegMap) (k : String) (v : Channel) : RegMap :=
  if m.any (fun p => p.1 = k) then
    m.map (fun p => if p.1 = k then (k, v) else p)
  else
    m ++ [(k, v)]

/-- JavaScript `Map.prototype.delete`: remove the entry with the key.
On a map with distinct keys this removes at most one entry. -/
def mapDelete (m : RegMap) (k : String) : RegMap :=
  m.filter (fun p => p.1 ≠ k)

/-- Payload of the one outbound frame the dispatcher produces. -/
inductive FrameBody where
  | searchResult (rs : List (String × String × Rat × Rat))
  | forecastResult
  | errorText (s : String)
deriving DecidableEq

/-- One outbound frame: the CallTool response content plus the `isError` flag. -/
structure Frame where
  body : FrameBody
  isError : Bool
deriving DecidableEq

/-- Result of one invocation of the `app.post("/messages")` handler
(session-matching variant, `src/index.ts` lines 435-466):
the HTTP status sent to the inbound caller, the frames delivered to push
channels (tagged with the target channel), the registry afterwards, and the
log of registry lookups performed. -/
structure RouteResult where
  status : Nat
  frames : List (Channel × Frame)
  reg : RegMap
  regReads : List String
deriving DecidableEq

/-- The `app.post("/messages")` handler, session-matching variant.
`sid?` is `req.query.sessionId` when it is a string, else `none`; the
source's `if (!sessionId)` guard is JavaScript falsiness, so both an absent
id and the empty string answer 400 before any registry access.
`frame` is the terminal frame the dispatcher will write for this call once
the payload has been handed to the transport found in the registry. -/
def routeMessage (sid? : Option String) (reg : RegMap) (frame : Frame) :
    RouteResult :=
  match sid? with
  | none => ⟨400, [], reg, []⟩
  | some sid =>
    if sid = "" then ⟨400, [], reg, []⟩
    else
      match mapGet reg sid with
      | none => ⟨404, [], reg, [sid]⟩
      | some ch => ⟨202, [(ch, frame)], reg, [sid]⟩

/-- Authentication configuration: `REQUIRE_API_KEY` and `MCP_API_KEY`
environment values (`none` = variable absent). -/
structure AuthConfig where
  requireKey : Bool
  mcpApiKey : Option String
deriving DecidableEq

/-- JavaScript falsiness of the `MCP_API_KEY` value: absent or empty. -/
def keyFalsy : Option String → Bool
  | none => true
  | some s => s.isEmpty

/-- Translation of `getClientApiKey`: the `x-api-key` header, trimmed,
or `undefined` when absent or whitespace-only. -/
def getClientApiKey (hdr : Option String) : Option String :=
  match hdr with
  | none => none
  | some raw => if (raw.trim).length > 0 then some raw.trim else none

/-- Outcome of the `requireApiKey` middleware. -/
inductive AuthResult where
  | pass
  | misconfigured
  | unauthorized
deriving DecidableEq

/-- Translation of the `requireApiKey` middleware (`src/index.ts` lines 38-64). -/
def requireApiKey (cfg : AuthConfig) (hdr : Option String) : AuthResult :=
  if cfg.requireKey = false then .pass
  else if keyFalsy cfg.mcpApiKey then .misconfigured
  else
    match getClientApiKey hdr with
    | none => .unauthorized
    | some p => if some p = cfg.mcpApiKey then .pass else .unauthorized

/-- The `app.get("/sse")` endpoint guarded by `requireApiKey`: on pass it
registers a fresh session id for the new transport; otherwise it responds
with the middleware's status and leaves the registry alone. Returns the
HTTP status and the registry afterwards. -/
def sseEndpoint (cfg : AuthConfig) (hdr : Option String) (freshId : String)
    (ch : Channel) (reg : RegMap) : Nat × RegMap :=
  match requireApiKey cfg hdr with
  | .misconfigured => (500, reg)
  | .unauthorized => (401, reg)
  | .pass => (200, mapSet reg freshId ch)

/-- The `app.post("/messages")` endpoint guarded by `requireApiKey`:
status, frames written, and resulting registry. -/
def messagesEndpoint (cfg : AuthConfig) (hdr : Option String)
    (sid? : Option String) (reg : RegMap) (frame : Frame) :
    Nat × List (Channel × Frame) × RegMap :=
  match requireApiKey cfg hdr with
  | .misconfigured => (500, [], reg)
  | .unauthorized => (401, [], reg)
  | .pass =>
    let r := routeMessage sid? reg frame
    (r.status, r.frames, r.reg)

/-- Session identifier minted by the transport-id generator of the
arbitrary-transport variant (`src/index.ts` lines 797-799):
the string interpolation of `Date.now()` and `Math.random()` is determined
by, and determines, the pair of the two draws (the decimal rendering of the
natural number contains no dash and the random rendering starts with a
digit), so the identifier is modelled as that pair. -/
structure SessionId where
  time : Nat
  rand : Rat
deriving DecidableEq

/-- Transport-id generation from one `Date.now()` and one `Math.random()` draw. -/
def genTransportId (now : Nat) (rand : Rat) : SessionId :=
  ⟨now, rand⟩

/-- Identifiers returned by a sequence of register operations whose
environment draws (`Date.now()`, `Math.random()`) are given by `draws`. -/
def registerAll (draws : List (Nat × Rat)) : List SessionId :=
  draws.map (fun d => genTransportId d.1 d.2)

/-- Translation of `weatherCodeMap` / `translateWeatherCode`
(`src/weatherCodes.ts`): WMO code to label, with the `"Unknown"` fallback
for any code outside the table. -/
def translateWeatherCode (code : Int) : String :=
  if code = 0 then "Clear"
  else if code = 1 then "Mainly Clear"
  else if code = 2 then "Partly Cloudy"
  else if code = 3 then "Overcast"
  else if code = 45 then "Foggy"
  else if code = 48 then "Depositing Rime Fog"
  else if code = 51 then "Light Drizzle"
  else if code = 53 then "Moderate Drizzle"
  else if code = 55 then "Dense Drizzle"
  else if code = 56 then "Light Freezing Drizzle"
  else if code = 57 then "Dense Freezing Drizzle"
  else if code = 61 then "Slight Rain"
  else if code = 63 then "Moderate Rain"
  else if code = 65 then "Heavy Rain"
  else if code = 66 then "Light Freezing Rain"
  else if code = 67 then "Heavy Freezing Rain"
  else if code = 71 then "Slight Snow Fall"
  else if code = 73 then "Moderate Snow Fall"
  else if code = 75 then "Heavy Snow Fall"
  else if code = 77 then "Snow Grains"
  else if code = 80 then "Slight Rain Showers"
  else if code = 81 then "Moderate Rain Showers"
  else if code = 82 then "Violent Rain Showers"
  else if code = 85 then "Slight Snow Showers"
  else if code = 86 then "Heavy Snow Showers"
  else if code = 95 then "Thunderstorm"
  else if code = 96 then "Thunderstorm with Slight Hail"
  else if code = 99 then "Thunderstorm with Heavy Hail"
  else "Unknown"

/-- The fixed generic failure message both upstream wrappers throw. -/
def unavailableMsg : String := "Weather data currently unavailable"

/-- One entry of the geocoding response body. -/
structure GeocodingResult where
  name : String
  country : String
  latitude : Rat
  longitude : Rat
deriving DecidableEq

/-- Parsed geocoding response body; `results` is an optional field. -/
structure GeocodingResponse where
  results : Option (List GeocodingResult)
deriving DecidableEq

/-- One entry `searchLocation` returns. -/
structure LocationSearchResult where
  name : String
  country : String
  lat : Rat
  lon : Rat
deriving DecidableEq

/-- Query parameters `searchLocation` sends to the geocoding collaborator. -/
structure GeocodingRequestParams where
  name : String
  count : Nat
  language : String
  format : String
deriving DecidableEq

/-- Parameters of the geocoding request built for `city`. -/
def searchLocationParams (city : String) : GeocodingRequestParams :=
  ⟨city, 5, "en", "json"⟩

/-- Field remapping applied to each geocoding result. -/
def locOf (r : GeocodingResult) : LocationSearchResult :=
  ⟨r.name, r.country, r.latitude, r.longitude⟩

/-- Translation of `searchLocation` (`src/index.ts` lines 156-189).
`outcome` is the oracle for the HTTP round-trip; any thrown error is caught
and rethrown as the generic unavailable message, a missing or empty
`results` field yields the empty list, and otherwise each result is
remapped to the output shape. -/
def searchLocation (city : String)
    (outcome : Except String GeocodingResponse) :
    Except String (List LocationSearchResult) :=
  let _ := searchLocationParams city
  match outcome with
  | .error _ => .error unavailableMsg
  | .ok resp =>
    match resp.results with
    | none => .ok []
    | some rs =>
      if rs.length = 0 then .ok []
      else .ok (rs.map locOf)

/-- Current-conditions block of the forecast response. -/
structure CurrentWeather where
  time : Int
  temperature_2m : Rat
  weather_code : Int
  relative_humidity_2m : Rat
  wind_speed_10m : Rat
deriving DecidableEq

/-- Hourly block of the forecast response (parallel arrays). -/
structure HourlyWeather where
  time : List Int
  temperature_2m : List Rat
  weather_code : List Int
  precipitation_probability : List Rat
deriving DecidableEq

/-- Daily block of the forecast response (parallel arrays). -/
structure DailyWeather where
  time : List Int
  weather_code : List Int
  temperature_2m_max : List Rat
  temperature_2m_min : List Rat
deriving DecidableEq

/-- Full forecast response body. -/
structure WeatherApiResponse where
  current : CurrentWeather
  hourly : HourlyWeather
  daily : DailyWeather
deriving DecidableEq

/-- Processed current conditions. -/
structure ForecastCurrent where
  time : Int
  temperature : Rat
  weather : String
  weather_code : Int
  humidity : Rat
  wind_speed : Rat
deriving DecidableEq

/-- One processed hourly entry. -/
structure HourEntry where
  time : Int
  temperature : Rat
  weather : String
  weather_code : Int
  precipitation_probability : Rat
deriving DecidableEq

/-- One processed daily entry. -/
structure DayEntry where
  date : Int
  weather : String
  weather_code : Int
  temperature_max : Rat
  temperature_min : Rat
deriving DecidableEq

/-- Processed forecast returned by `getCompleteForecast`. -/
structure Forecast where
  current : ForecastCurrent
  next_12_hours : List HourEntry
  next_7_days : List DayEntry
deriving DecidableEq

/-- Window test of the hourly loop: `hoursDiff >= 0 && hoursDiff < 12`,
on the millisecond difference. -/
def inWindow (now t : Int) : Bool :=
  decide (0 ≤ t - now) && decide (t - now < 12 * 3600000)

/-- Hourly entry built at loop index `i` for the time value `t`
(which is `hourly.time[i]`); absent parallel-array values fall back to the
out-of-table code `-1` and zero, mirroring `undefined` only in the fields
the claims inspect. -/
def hourEntry (h : HourlyWeather) (i : Nat) (t : Int) : HourEntry :=
  ⟨t, h.temperature_2m.getD i 0,
    translateWeatherCode (h.weather_code.getD i (-1)),
    h.weather_code.getD i (-1),
    h.precipitation_probability.getD i 0⟩

/-- The `for` loop over `hourly.time` building `next12Hours`, walking the
remaining time values with the running index `i`. -/
def collect12 (now : Int) (h : HourlyWeather) : List Int → Nat → List HourEntry
  | [], _ => []
  | t :: ts, i =>
    if inWindow now t then hourEntry h i t :: collect12 now h ts (i + 1)
    else collect12 now h ts (i + 1)

/-- Daily entry built at index `i` for the date value `t`. -/
def dayEntry (d : DailyWeather) (i : Nat) (t : Int) : DayEntry :=
  ⟨t, translateWeatherCode (d.weather_code.getD i (-1)),
    d.weather_code.getD i (-1),
    d.temperature_2m_max.getD i 0,
    d.temperature_2m_min.getD i 0⟩

/-- The `daily.time.slice(0, 7).map(...)` pipeline, as a walk over the
sliced time values with the running index. -/
def collect7 (d : DailyWeather) : List Int → Nat → List DayEntry
  | [], _ => []
  | t :: ts, i => dayEntry d i t :: collect7 d ts (i + 1)

/-- Response processing of `getCompleteForecast` (`src/index.ts`
lines 218-273): current conditions remap, the 12-hour window filter, and
the 7-day slice. -/
def processForecast (resp : WeatherApiResponse) : Forecast :=
  { current :=
      ⟨resp.current.time, resp.current.temperature_2m,
        translateWeatherCode resp.current.weather_code,
        resp.current.weather_code, resp.current.relative_humidity_2m,
        resp.current.wind_speed_10m⟩,
    next_12_hours := collect12 resp.current.time resp.hourly resp.hourly.time 0,
    next_7_days := collect7 resp.daily (resp.daily.time.take 7) 0 }

/-- Translation of `getCompleteForecast` (`src/index.ts` lines 192-278):
any thrown error is caught and rethrown as the generic unavailable message;
a parsed response is processed by `processForecast`. -/
def getCompleteForecast (latitude longitude : Rat)
    (outcome : Except String WeatherApiResponse) : Except String Forecast :=
  let _ := (latitude, longitude)
  match outcome with
  | .error _ => .error unavailableMsg
  | .ok resp => .ok (processForecast resp)

/-- Raw `arguments` object of an inbound CallTool request: the fields the
two zod schemas look at, `none` for an absent (or non-conforming) field. -/
structure ToolArgs where
  city : Option String
  latitude : Option Rat
  longitude : Option Rat
deriving DecidableEq

/-- Validation against `SearchLocationInputSchema`
(`z.object` with `city: z.string().min(1)`); the error value is the
aggregated human-readable zod message. -/
def parseSearchInput (a : ToolArgs) : Except String String :=
  match a.city with
  | none => .error "Required"
  | some c => if 1 ≤ c.length then .ok c else .error "City name is required"

/-- Validation against `GetCompleteForecastInputSchema`
(`latitude` in -90..90, `longitude` in -180..180). -/
def parseForecastInput (a : ToolArgs) : Except String (Rat × Rat) :=
  match a.latitude, a.longitude with
  | some la, some lo =>
    if -90 ≤ la ∧ la ≤ 90 then
      if -180 ≤ lo ∧ lo ≤ 180 then .ok (la, lo)
      else .error "Number out of range"
    else .error "Number out of range"
  | _, _ => .error "Required"

/-- Errors the `try` block of the CallTool handler can throw: a zod
validation error, or a JavaScript `Error` carrying a message (thrown by the
upstream wrappers or by the unknown-tool branch). -/
inductive ThrownError where
  | zodError (msg : String)
  | jsError (message : String)
deriving DecidableEq

/-- The `try` block of the CallTool handler (`src/index.ts` lines 327-364):
dispatch on the tool name, validate, invoke the wrapper, and build the
success response; every failure is thrown. -/
def tryCallTool (name : String) (args : ToolArgs)
    (searchOutcome : Except String GeocodingResponse)
    (forecastOutcome : Except String WeatherApiResponse) :
    Except ThrownError Frame :=
  if name = "search_location" then
    match parseSearchInput args with
    | .error m => .error (.zodError m)
    | .ok c =>
      match searchLocation c searchOutcome with
      | .error m => .error (.jsError m)
      | .ok rs =>
        .ok ⟨.searchResult (rs.map (fun r => (r.name, r.country, r.lat, r.lon))),
          false⟩
  else if name = "get_complete_forecast" then
    match parseForecastInput args with
    | .error m => .error (.zodError m)
    | .ok (la, lo) =>
      match getCompleteForecast la lo forecastOutcome with
      | .error m => .error (.jsError m)
      | .ok _fc => .ok ⟨.forecastResult, false⟩
  else
    .error (.jsError ("Unknown tool: " ++ name))

/-- The full CallTool handler (`src/index.ts` lines 323-393): the `try`
block plus the `catch` that converts a zod error into the aggregated
invalid-input frame and any other `Error` into an error frame carrying the
error's message. -/
def handleCallTool (name : String) (args : ToolArgs)
    (searchOutcome : Except String GeocodingResponse)
    (forecastOutcome : Except String WeatherApiResponse) : Frame :=
  match tryCallTool name args searchOutcome forecastOutcome with
  | .ok f => f
  | .error (.zodError m) => ⟨.errorText ("Invalid input: " ++ m), true⟩
  | .error (.jsError m) => ⟨.errorText m, true⟩

/-- Frames the dispatcher writes to the owning channel for one accepted
Pending Call: the single response object of the handler. -/
def framesWritten (name : String) (args : ToolArgs)
    (searchOutcome : Except String GeocodingResponse)
    (forecastOutcome : Except String WeatherApiResponse) : List Frame :=
  [handleCallTool name args searchOutcome forecastOutcome]

/-! Helper lemmas about the registry map. -/

/-- Unfolding of `mapGet` on a nonempty association list. -/
theorem mapGet_cons (p : String × Channel) (ms : RegMap) (k : String) :
    mapGet (p :: ms) k = if p.1 = k then some p.2 else mapGet ms k := by
  by_cases h : p.1 = k <;> simp [mapGet, List.find?_cons, h]

/-- Unfolding of `mapDelete` on a nonempty association list. -/
theorem mapDelete_cons (p : String × Channel) (ms : RegMap) (k : String) :
    mapDelete (p :: ms) k =
      if p.1 = k then mapDelete ms k else p :: mapDelete ms k := by
  by_cases h : p.1 = k <;> simp [mapDelete, List.filter_cons, h]

/-- Lookup after delete: the deleted key reads `none`, every other key is
unchanged. -/
theorem mapGet_mapDelete (m : RegMap) (k k' : String) :
    mapGet (mapDelete m k) k' = if k' = k then none else mapGet m k' := by
  induction m with
  | nil => simp [mapGet, mapDelete]
  | cons p ms ih =>
    by_cases hp : p.1 = k
    · rw [mapDelete_cons, if_pos hp, ih]
      by_cases hk : k' = k
      · simp [hk]
      · rw [if_neg hk, if_neg hk, mapGet_cons,
          if_neg (fun h : p.1 = k' => hk (h.symm.trans hp))]
    · rw [mapDelete_cons, if_neg hp, mapGet_cons]
      by_cases hpk : p.1 = k'
      · rw [if_pos hpk, if_neg (fun h : k' = k => hp (hpk.trans h)),
          mapGet_cons, if_pos hpk]
      · rw [if_neg hpk, ih, mapGet_cons, if_neg hpk]

/-- Deleting the same key twice is the same as deleting it once. -/
theorem mapDelete_idem (m : RegMap) (k : String) :
    mapDelete (mapDelete m k) k = mapDelete m k := by
  simp [mapDelete, List.filter_filter]

/-- C2: for every inbound call carrying a session id (a nonempty one — the
empty string falls to the falsy missing-id guard, claim C5), the router
resolves the channel registered under exactly that id; when the id is not
in the registry (never registered or already deregistered) it answers 404
and writes no frame to any channel, and in both cases the registry is
unchanged. -/
theorem router_strict_session_matching (sid : String) (hsid : sid ≠ "")
    (reg : RegMap) (frame : Frame) :
    (mapGet reg sid = none →
      routeMessage (some sid) reg frame = ⟨404, [], reg, [sid]⟩) ∧
    (∀ ch, mapGet reg sid = some ch →
      routeMessage (some sid) reg frame = ⟨202, [(ch, frame)], reg, [sid]⟩) := by
  constructor
  · intro h; simp [routeMessage, hsid, h]
  · intro ch h; simp [routeMessage, hsid, h]

/-- Witness for C2 at a concrete registry: a registered id resolves its own
channel, an unregistered id yields 404 with no frame. -/
theorem router_strict_session_matching_witness :
    routeMessage (some "s1") [("s1", 7)] ⟨.errorText "x", true⟩ =
      ⟨202, [(7, ⟨.errorText "x", true⟩)], [("s1", 7)], ["s1"]⟩ ∧
    routeMessage (some "s2") [("s1", 7)] ⟨.errorText "x", true⟩ =
      ⟨404, [], [("s1", 7)], ["s2"]⟩ :=
  ⟨(router_strict_session_matching "s1" (by decide) [("s1", 7)]
      ⟨.errorText "x", true⟩).2 7 (by decide),
    (router_strict_session_matching "s2" (by decide) [("s1", 7)]
      ⟨.errorText "x", true⟩).1 (by decide)⟩

/-- C5: an inbound call whose session id is absent (no string query value)
or malformed in the one way the source detects (the empty string, falsy
under the `if (!sessionId)` guard) is answered 400, no frame is written,
the registry is untouched and no registry lookup occurs. -/
theorem router_missing_session_id (reg : RegMap) (frame : Frame) :
    routeMessage none reg frame = ⟨400, [], reg, []⟩ ∧
    routeMessage (some "") reg frame = ⟨400, [], reg, []⟩ :=
  ⟨rfl, rfl⟩

/-- C4: deregister followed by lookup on the same identifier yields
`none`; deregistering twice is the same as once (total, no error); every
other identifier's entry is unchanged. -/
theorem deregister_lookup_contract (m : RegMap) (k : String) :
    mapGet (mapDelete m k) k = none ∧
    mapDelete (mapDelete m k) k = mapDelete m k ∧
    (∀ k', k' ≠ k → mapGet (mapDelete m k) k' = mapGet m k') := by
  refine ⟨?_, mapDelete_idem m k, ?_⟩
  · simp [mapGet_mapDelete]
  · intro k' hk
    simp [mapGet_mapDelete, hk]

/-- Witness for C4 on a concrete two-session registry. -/
theorem deregister_lookup_contract_witness :
    mapGet (mapDelete [("a", 1), ("b", 2)] "a") "a" = none ∧
    mapDelete (mapDelete [("a", 1), ("b", 2)] "a") "a" =
      mapDelete [("a", 1), ("b", 2)] "a" ∧
    mapGet (mapDelete [("a", 1), ("b", 2)] "a") "b" =
      mapGet [("a", 1), ("b", 2)] "b" :=
  ⟨(deregister_lookup_contract [("a", 1), ("b", 2)] "a").1,
    (deregister_lookup_contract [("a", 1), ("b", 2)] "a").2.1,
    (deregister_lookup_contract [("a", 1), ("b", 2)] "a").2.2 "b" (by decide)⟩

/-- C8: with the shared-secret check enabled but no secret configured, both
the streaming endpoint and the call endpoint answer 500, register nothing,
and write no frame — no request is admitted. -/
theorem auth_fails_closed (cfg : AuthConfig) (hreq : cfg.requireKey = true)
    (hkey : cfg.mcpApiKey = none) (hdr : Option String) (freshId : String)
    (ch : Channel) (reg : RegMap) (sid? : Option String) (frame : Frame) :
    sseEndpoint cfg hdr freshId ch reg = (500, reg) ∧
    messagesEndpoint cfg hdr sid? reg frame = (500, [], reg) := by
  have h : requireApiKey cfg hdr = .misconfigured := by
    simp [requireApiKey, hreq, hkey, keyFalsy]
  exact ⟨by simp [sseEndpoint, h], by simp [messagesEndpoint, h]⟩

/-- Witness for C8 with a concrete misconfigured setup, even when the
caller presents a key. -/
theorem auth_fails_closed_witness :
    sseEndpoint ⟨true, none⟩ (some "guess") "s1" 7 [] = (500, []) ∧
    messagesEndpoint ⟨true, none⟩ (some "guess") (some "s1") []
      ⟨.errorText "x", true⟩ = (500, [], []) :=
  auth_fails_closed ⟨true, none⟩ rfl rfl (some "guess") "s1" 7 []
    (some "s1") ⟨.errorText "x", true⟩

/-- C10: a successful geocoding response whose results field is missing, or
present but empty, makes `searchLocation` return the empty list — not the
unavailable error. -/
theorem searchLocation_empty_results (city : String) :
    searchLocation city (.ok ⟨none⟩) = .ok [] ∧
    searchLocation city (.ok ⟨some []⟩) = .ok [] :=
  ⟨rfl, rfl⟩

/-- C3 counterexample: two register operations whose environment draws
coincide (same `Date.now()` millisecond, same `Math.random()` value — which
concurrent registration permits) return equal identifiers, so the returned
identifiers are not pairwise distinct for every sequence of register
operations. -/
theorem register_ids_collision :
    ¬ (registerAll [(0, 0), (0, 0)]).Nodup := by decide

/-- C3 amended: whenever the environment draws backing the register
operations are pairwise distinct, the returned identifiers are pairwise
distinct; in particular each fresh identifier differs from every earlier
returned one, hence from every currently-live identifier. -/
theorem register_ids_distinct (draws : List (Nat × Rat)) (h : draws.Nodup) :
    (registerAll draws).Nodup := by
  have hinj : Function.Injective (fun d : Nat × Rat => genTransportId d.1 d.2) := by
    intro a b hab
    simp only [genTransportId, SessionId.mk.injEq] at hab
    exact Prod.ext hab.1 hab.2
  exact h.map hinj

/-- Witness for C3 amended on two concrete distinct draws. -/
theorem register_ids_distinct_witness :
    (registerAll [(0, 0), (1, 0)]).Nodup :=
  register_ids_distinct [(0, 0), (1, 0)] (by decide)

/-- C6: when the arguments validate but the external handler reports a
failure, the single frame written carries exactly the fixed generic
unavailable message, for every failure cause and for both operations — the
cause never appears in the frame. -/
theorem handler_failure_generic_frame (args args2 : ToolArgs) (c : String)
    (hc : parseSearchInput args = .ok c) (p : Rat × Rat)
    (hp : parseForecastInput args2 = .ok p) (cause cause2 : String)
    (sO : Except String GeocodingResponse)
    (fO : Except String WeatherApiResponse) :
    handleCallTool "search_location" args (.error cause) fO =
      ⟨.errorText unavailableMsg, true⟩ ∧
    handleCallTool "get_complete_forecast" args2 sO (.error cause2) =
      ⟨.errorText unavailableMsg, true⟩ := by
  constructor
  · simp [handleCallTool, tryCallTool, hc, searchLocation]
  · obtain ⟨la, lo⟩ := p
    simp [handleCallTool, tryCallTool, hp, getCompleteForecast]

/-- Witness for C6 on concrete validated arguments and a concrete cause. -/
theorem handler_failure_generic_frame_witness :
    handleCallTool "search_location" ⟨some "Paris", none, none⟩
      (.error "ECONNRESET at socket") (.ok ⟨⟨0, 0, 0, 0, 0⟩, ⟨[], [], [], []⟩,
        ⟨[], [], [], []⟩⟩) = ⟨.errorText unavailableMsg, true⟩ ∧
    handleCallTool "get_complete_forecast" ⟨none, some 48, some 2⟩
      (.ok ⟨none⟩) (.error "HTTP 503 from upstream") =
      ⟨.errorText unavailableMsg, true⟩ :=
  handler_failure_generic_frame ⟨some "Paris", none, none⟩
    ⟨none, some 48, some 2⟩ "Paris" rfl (48, 2) rfl
    "ECONNRESET at socket" "HTTP 503 from upstream"
    (.ok ⟨none⟩) (.ok ⟨⟨0, 0, 0, 0, 0⟩, ⟨[], [], [], []⟩, ⟨[], [], [], []⟩⟩)

/-- C9: the geocoding request is built with count 5; for a nonempty city, a
successful call whose response honours that count returns the at most 5
results remapped to name, country, lat, lon; any transport or parse error
yields the generic unavailable failure. -/
theorem searchLocation_contract (city : String) (hcity : city ≠ "")
    (resp : GeocodingResponse) (rs : List GeocodingResult)
    (hrs : resp.results = some rs)
    (hcount : rs.length ≤ (searchLocationParams city).count)
    (cause : String) :
    (searchLocationParams city).count = 5 ∧
    searchLocation city (.ok resp) = .ok (rs.map locOf) ∧
    (rs.map locOf).length ≤ 5 ∧
    (∀ r ∈ rs, locOf r = ⟨r.name, r.country, r.latitude, r.longitude⟩) ∧
    searchLocation city (.error cause) = .error unavailableMsg := by
  refine ⟨rfl, ?_, ?_, fun r _ => rfl, rfl⟩
  · simp only [searchLocation, hrs]
    by_cases h0 : rs.length = 0
    · rw [List.length_eq_zero] at h0
      simp [h0]
    · simp [h0]
  · simpa using hcount

/-- Witness for C9 on a concrete city and one concrete result. -/
theorem searchLocation_contract_witness :
    searchLocation "Paris" (.ok ⟨some [⟨"Paris", "France", 48, 2⟩]⟩) =
      .ok [⟨"Paris", "France", 48, 2⟩] ∧
    searchLocation "Paris" (.error "socket hang up") = .error unavailableMsg :=
  ⟨((searchLocation_contract "Paris" (by decide)
      ⟨some [⟨"Paris", "France", 48, 2⟩]⟩ [⟨"Paris", "France", 48, 2⟩] rfl
      (by decide) "socket hang up").2.1),
    ((searchLocation_contract "Paris" (by decide)
      ⟨some [⟨"Paris", "France", 48, 2⟩]⟩ [⟨"Paris", "France", 48, 2⟩] rfl
      (by decide) "socket hang up").2.2.2.2)⟩

/-- Frames the `try` block returns are success frames carrying the
handler's result. -/
theorem tryCallTool_ok_shape (name : String) (args : ToolArgs)
    (sO : Except String GeocodingResponse)
    (fO : Except String WeatherApiResponse) (f : Frame)
    (h : tryCallTool name args sO fO = .ok f) :
    f.isError = false ∧
      (f.body = .forecastResult ∨ ∃ rs, f.body = .searchResult rs) := by
  unfold tryCallTool at h
  split at h
  · split at h
    · exact absurd h (by simp)
    · split at h
      · exact absurd h (by simp)
      · injection h with h
        subst h
        exact ⟨rfl, .inr ⟨_, rfl⟩⟩
  · split at h
    · split at h
      · exact absurd h (by simp)
      · split at h
        · exact absurd h (by simp)
        · injection h with h
          subst h
          exact ⟨rfl, .inl rfl⟩
    · exact absurd h (by simp)

/-- C1: for every accepted Pending Call — any tool name, any arguments, any
outcome of the two external handlers, so in particular on validation
failure, on an unknown operation name, and when the external handler
throws — exactly one terminal frame is written to the owning channel, and
it is either one success frame with the handler's result or one error
frame. -/
theorem dispatcher_exactly_one_terminal_frame (name : String)
    (args : ToolArgs) (sO : Except String GeocodingResponse)
    (fO : Except String WeatherApiResponse) :
    ∃ f, framesWritten name args sO fO = [f] ∧
      ((f.isError = true ∧ ∃ s, f.body = .errorText s) ∨
       (f.isError = false ∧
         (f.body = .forecastResult ∨ ∃ rs, f.body = .searchResult rs))) := by
  refine ⟨handleCallTool name args sO fO, rfl, ?_⟩
  unfold handleCallTool
  cases h : tryCallTool name args sO fO with
  | ok f => exact .inr (tryCallTool_ok_shape name args sO fO f h)
  | error e =>
    cases e with
    | zodError m => exact .inl ⟨rfl, _, rfl⟩
    | jsError m => exact .inl ⟨rfl, _, rfl⟩

/-- Entry times collected by the hourly loop are exactly the time values in
the half-open 12-hour window, in upstream order. -/
theorem collect12_map_time (now : Int) (h : HourlyWeather) (ts : List Int) :
    ∀ i, (collect12 now h ts i).map (fun e => e.time) =
      ts.filter (inWindow now) := by
  induction ts with
  | nil => intro i; rfl
  | cons t ts ih =>
    intro i
    by_cases hw : inWindow now t
    · simp [collect12, hw, hourEntry, List.filter_cons, ih]
    · simp [collect12, hw, List.filter_cons, ih]

/-- Date values of the collected daily entries are the walked time values. -/
theorem collect7_map_date (d : DailyWeather) (ts : List Int) :
    ∀ i, (collect7 d ts i).map (fun e => e.date) = ts := by
  induction ts with
  | nil => intro i; rfl
  | cons t ts ih => intro i; simp [collect7, dayEntry, ih]

/-- The daily pipeline yields one entry per walked time value. -/
theorem collect7_length (d : DailyWeather) (ts : List Int) :
    ∀ i, (collect7 d ts i).length = ts.length := by
  induction ts with
  | nil => intro i; rfl
  | cons t ts ih => intro i; simp [collect7, ih]

/-- Upstream forecast response supplying exactly one daily entry. -/
def oneDayResp : WeatherApiResponse :=
  ⟨⟨0, 20, 0, 50, 10⟩, ⟨[], [], [], []⟩, ⟨[0], [0], [20], [10]⟩⟩

/-- C7 counterexample: on a successful response supplying a single daily
entry, `next_7_days` has length 1, not 7 — the list is never padded to 7. -/
theorem forecast_days_not_padded :
    getCompleteForecast 0 0 (.ok oneDayResp) =
      .ok (processForecast oneDayResp) ∧
    (processForecast oneDayResp).next_7_days.length ≠ 7 :=
  ⟨rfl, by decide⟩

/-- C7 amended: for every successful call, `next_12_hours` is exactly the
hourly entries whose offset from the current-conditions timestamp lies in
the half-open 12-hour window, in upstream order, and `next_7_days` consists
of the first `min 7 n` supplied daily entries — truncated to at most 7,
never padded. -/
theorem forecast_window_and_days (lat lon : Rat) (resp : WeatherApiResponse) :
    getCompleteForecast lat lon (.ok resp) = .ok (processForecast resp) ∧
    (processForecast resp).next_12_hours.map (fun e => e.time) =
      resp.hourly.time.filter (inWindow resp.current.time) ∧
    (processForecast resp).next_7_days.map (fun e => e.date) =
      resp.daily.time.take 7 ∧
    (processForecast resp).next_7_days.length =
      min 7 resp.daily.time.length := by
  refine ⟨rfl, ?_, ?_, ?_⟩
  · exact collect12_map_time resp.current.time resp.hourly resp.hourly.time 0
  · exact collect7_map_date resp.daily (resp.daily.time.take 7) 0
  · show (collect7 resp.daily (resp.daily.time.take 7) 0).length = _
    rw [collect7_length resp.daily (resp.daily.time.take 7) 0,
      List.length_take]

end SimpleForecast
